import Mathlib

/-!
# SlickClick — verification of the core click engine, hotkey listener,
# settings store and update checker

Shallow embedding of `slickclick/clicker.py`, `slickclick/config.py`,
`slickclick/hotkey.py` and `slickclick/updater.py`.  Threaded loops are
modelled as fuel-indexed iteration of a step function over an explicit
state record; side effects (pointer moves, callback invocations, status
notifications) are recorded as event logs in the state.
-/

namespace SlickClick

/-! ## Click engine (`clicker.py`) -/

/-- State of one execution of `ClickerEngine._click_loop`:
`clickCount` mirrors `self._click_count`, `locIndex` mirrors `loc_index`,
`moves` logs the arguments of `pyautogui.moveTo`, `countLog` logs the
values handed to `_notify_click_count`, and `done` records that the loop
has hit the `break` for the repeat limit. -/
structure ClickLoopState where
  clickCount : Nat
  locIndex : Nat
  moves : List (Int × Int)
  countLog : List Nat
  done : Bool
deriving Repr, DecidableEq

/-- Initial state of `_click_loop` (counter was reset to 0 by `start`,
`loc_index = 0`). -/
def clickLoopInit : ClickLoopState := ⟨0, 0, [], [], false⟩

/-- One iteration of the `while not self._stop_event.is_set()` body of
`ClickerEngine._click_loop`, for a run on which `stop()` is never called:
move to `locations[loc_index % len(locations)]` when locations exist,
click, bump and report the counter, and `break` once
`repeat_count > 0 and self._click_count >= repeat_count`. -/
def clickLoopStep (locations : List (Int × Int)) (repeat_count : Nat)
    (s : ClickLoopState) : ClickLoopState :=
  if s.done then s
  else
    let s1 :=
      if 0 < locations.length then
        { s with
          moves := s.moves ++ [locations.getD (s.locIndex % locations.length) (0, 0)],
          locIndex := s.locIndex + 1 }
      else s
    let c := s1.clickCount + 1
    let s2 := { s1 with clickCount := c, countLog := s1.countLog ++ [c] }
    if 0 < repeat_count ∧ repeat_count ≤ c then { s2 with done := true } else s2

/-- `n` iterations of the click loop from the initial state. -/
def clickLoopRun (locations : List (Int × Int)) (repeat_count : Nat) :
    Nat → ClickLoopState
  | 0 => clickLoopInit
  | n + 1 => clickLoopStep locations repeat_count (clickLoopRun locations repeat_count n)

/-- The cyclic sequence of points `locations[i % len(locations)]`,
`i = 0, …, n-1`. -/
def cyclicMoves (locations : List (Int × Int)) (n : Nat) : List (Int × Int) :=
  (List.range n).map (fun i => locations.getD (i % locations.length) (0, 0))

lemma cyclicMoves_zero (locations : List (Int × Int)) :
    cyclicMoves locations 0 = [] := rfl

lemma cyclicMoves_succ (locations : List (Int × Int)) (n : Nat) :
    cyclicMoves locations (n + 1) =
      cyclicMoves locations n ++ [locations.getD (n % locations.length) (0, 0)] := by
  simp [cyclicMoves, List.range_succ]

/-- Closed form of the loop state while the repeat limit has not been
passed: after `n ≤ R` iterations (or any `n` when `R = 0`) the loop has
clicked exactly `n` times, reported `1, …, n`, and moved cyclically. -/
lemma clickLoopRun_closed (locations : List (Int × Int)) (R n : Nat)
    (h : R = 0 ∨ n ≤ R) :
    clickLoopRun locations R n =
      ⟨n, if 0 < locations.length then n else 0,
       if 0 < locations.length then cyclicMoves locations n else [],
       List.range' 1 n,
       decide (0 < R ∧ R ≤ n)⟩ := by
  induction n with
  | zero =>
      have hdone : decide (0 < R ∧ R ≤ 0) = false := by
        rcases h with h | h <;> simp <;> omega
      simp [clickLoopRun, clickLoopInit, hdone, cyclicMoves]
      omega
  | succ n ih =>
      have hn : R = 0 ∨ n ≤ R := by omega
      have hprev := ih hn
      have hRn : ¬(0 < R ∧ R ≤ n) := by rcases h with h | h <;> omega
      rw [clickLoopRun, hprev]
      by_cases hR : 0 < R ∧ R ≤ n + 1 <;>
        by_cases hl : 0 < locations.length <;>
        simp [clickLoopStep, hRn, hl, hR, cyclicMoves_succ, List.range'_concat,
          Nat.one_add] <;>
        omega

/-- Once the loop has broken out, further fuel changes nothing. -/
lemma clickLoopStep_done (locations : List (Int × Int)) (R : Nat)
    (s : ClickLoopState) (h : s.done = true) :
    clickLoopStep locations R s = s := by
  simp [clickLoopStep, h]

lemma clickLoopRun_stable (locations : List (Int × Int)) (R : Nat) (hR : 0 < R)
    (fuel : Nat) (h : R ≤ fuel) :
    clickLoopRun locations R fuel = clickLoopRun locations R R := by
  induction fuel, h using Nat.le_induction with
  | base => rfl
  | succ m hm ih =>
      have hdone : (clickLoopRun locations R m).done = true := by
        rcases Nat.lt_or_ge m R with hlt | hge
        · omega
        · rw [ih]
          rw [clickLoopRun_closed locations R R (Or.inr le_rfl)]
          simp [hR]
      calc clickLoopRun locations R (m + 1)
          = clickLoopStep locations R (clickLoopRun locations R m) := rfl
        _ = clickLoopRun locations R m := clickLoopStep_done _ _ _ hdone
        _ = clickLoopRun locations R R := ih

/-! ## Engine-level start/stop state (`ClickerEngine.start` / `stop`) -/

/-- Engine-level state visible to `start` and `stop`: `running` mirrors
`self._running`, `clickCount` mirrors `self._click_count`, `stopEventSet`
mirrors `self._stop_event`, `statusLog` logs the values handed to
`_notify_status`, and `threadsStarted` counts `threading.Thread(...).start()`
calls. -/
structure EngineState where
  running : Bool
  clickCount : Nat
  stopEventSet : Bool
  statusLog : List Bool
  threadsStarted : Nat
deriving Repr, DecidableEq

/-- `ClickerEngine.start`: early-returns when already running; otherwise
clears the stop event, resets the counter, marks running, notifies
status(True) and launches the loop thread. -/
def engineStart (s : EngineState) : EngineState :=
  if s.running then s
  else
    { running := true, clickCount := 0, stopEventSet := false,
      statusLog := s.statusLog ++ [true], threadsStarted := s.threadsStarted + 1 }

/-- `ClickerEngine.stop`: early-returns when not running; otherwise sets the
stop event, clears the running flag and notifies status(False). -/
def engineStop (s : EngineState) : EngineState :=
  if s.running then
    { s with stopEventSet := true, running := false,
             statusLog := s.statusLog ++ [false] }
  else s

/-! ## Callback-failure model (`_notify_status` / `_notify_click_count`) -/

/-- `ClickerEngine._notify_click_count`: the registered callback may raise
(`Except.error`); the `try/except Exception: pass` at the call site swallows
the failure. `none` models no registered callback. -/
def notifyClickCountE (cb : Option (Nat → Except String Unit)) (count : Nat) :
    Except String Unit :=
  match cb with
  | none => .ok ()
  | some f =>
    match f count with
    | .ok _ => .ok ()
    | .error _ => .ok ()

/-- `ClickerEngine._notify_status`, with the same swallowing wrapper. -/
def notifyStatusE (cb : Option (Bool → Except String Unit)) (running : Bool) :
    Except String Unit :=
  match cb with
  | none => .ok ()
  | some f =>
    match f running with
    | .ok _ => .ok ()
    | .error _ => .ok ()

/-- One click-loop iteration threaded through `Except`: a failure escaping
`_notify_click_count` would abort the loop here. -/
def clickLoopStepE (cb : Option (Nat → Except String Unit))
    (locations : List (Int × Int)) (repeat_count : Nat)
    (s : ClickLoopState) : Except String ClickLoopState :=
  if s.done then .ok s
  else
    let s1 :=
      if 0 < locations.length then
        { s with
          moves := s.moves ++ [locations.getD (s.locIndex % locations.length) (0, 0)],
          locIndex := s.locIndex + 1 }
      else s
    let c := s1.clickCount + 1
    let s2 := { s1 with clickCount := c, countLog := s1.countLog ++ [c] }
    match notifyClickCountE cb c with
    | .error e => .error e
    | .ok _ =>
      .ok (if 0 < repeat_count ∧ repeat_count ≤ c then { s2 with done := true } else s2)

/-- `n` iterations of the `Except`-threaded click loop. -/
def clickLoopRunE (cb : Option (Nat → Except String Unit))
    (locations : List (Int × Int)) (repeat_count : Nat) :
    Nat → Except String ClickLoopState
  | 0 => .ok clickLoopInit
  | n + 1 =>
    match clickLoopRunE cb locations repeat_count n with
    | .error e => .error e
    | .ok s => clickLoopStepE cb locations repeat_count s

lemma notifyClickCountE_ok (cb : Option (Nat → Except String Unit)) (count : Nat) :
    notifyClickCountE cb count = .ok () := by
  cases cb with
  | none => rfl
  | some f => cases h : f count <;> simp [notifyClickCountE, h]

lemma notifyStatusE_ok (cb : Option (Bool → Except String Unit)) (running : Bool) :
    notifyStatusE cb running = .ok () := by
  cases cb with
  | none => rfl
  | some f => cases h : f running <;> simp [notifyStatusE, h]

lemma clickLoopStepE_eq (cb : Option (Nat → Except String Unit))
    (locations : List (Int × Int)) (R : Nat) (s : ClickLoopState) :
    clickLoopStepE cb locations R s = .ok (clickLoopStep locations R s) := by
  by_cases hd : s.done = true
  · simp [clickLoopStepE, clickLoopStep, hd]
  · simp [clickLoopStepE, clickLoopStep, hd, notifyClickCountE_ok]

/-- C1: for every repeat count `R > 0`, a run of the click loop that is never
stopped performs exactly `R` clicks and reports the counter values
`1, 2, …, R` (`List.range' 1 R`) in order, with the loop terminated; a repeat
count of `0` imposes no bound: after `n` iterations the loop has clicked `n`
times and is still going. -/
theorem clickLoop_repeat_exact (locations : List (Int × Int)) (R : Nat) :
    (0 < R → ∀ fuel, R ≤ fuel →
      (clickLoopRun locations R fuel).clickCount = R ∧
      (clickLoopRun locations R fuel).countLog = List.range' 1 R ∧
      (clickLoopRun locations R fuel).done = true) ∧
    (∀ n, (clickLoopRun locations 0 n).clickCount = n ∧
      (clickLoopRun locations 0 n).done = false) := by
  constructor
  · intro hR fuel hfuel
    rw [clickLoopRun_stable locations R hR fuel hfuel,
        clickLoopRun_closed locations R R (Or.inr le_rfl)]
    simp [hR]
  · intro n
    rw [clickLoopRun_closed locations 0 n (Or.inl rfl)]
    simp

theorem clickLoop_repeat_exact_witness :
    (clickLoopRun ([] : List (Int × Int)) 3 5).clickCount = 3 ∧
    (clickLoopRun ([] : List (Int × Int)) 3 5).countLog = List.range' 1 3 ∧
    (clickLoopRun ([] : List (Int × Int)) 0 4).clickCount = 4 :=
  ⟨((clickLoop_repeat_exact [] 3).1 (by decide) 5 (by decide)).1,
   ((clickLoop_repeat_exact [] 3).1 (by decide) 5 (by decide)).2.1,
   ((clickLoop_repeat_exact [] 0).2 4).1⟩

/-- C2: at most one run is active: `start` while running changes nothing
(no counter reset, no thread launch, no status notification), and `stop`
while not running changes nothing. -/
theorem engine_single_run (s : EngineState) :
    (s.running = true → engineStart s = s) ∧
    (s.running = false → engineStop s = s) := by
  constructor <;> intro h <;> simp [engineStart, engineStop, h]

theorem engine_single_run_witness :
    engineStart ⟨true, 2, false, [true], 1⟩ = ⟨true, 2, false, [true], 1⟩ ∧
    engineStop ⟨false, 0, false, [], 0⟩ = ⟨false, 0, false, [], 0⟩ :=
  ⟨(engine_single_run ⟨true, 2, false, [true], 1⟩).1 rfl,
   (engine_single_run ⟨false, 0, false, [], 0⟩).2 rfl⟩

/-- C3: with a non-empty target list the loop moves through the points in
cyclic order (index mod length) before each click, empty target lists cause
no moves, and the concrete job `[(10,10),(20,20),(30,30)]` with repeat
count 7 yields exactly the stated seven moves. -/
theorem clickLoop_cyclic_moves :
    (∀ (locations : List (Int × Int)) (R n : Nat), R = 0 ∨ n ≤ R →
      (0 < locations.length →
        (clickLoopRun locations R n).moves = cyclicMoves locations n) ∧
      (locations = [] → (clickLoopRun locations R n).moves = [])) ∧
    (clickLoopRun [((10 : Int), (10 : Int)), (20, 20), (30, 30)] 7 7).moves =
      [(10, 10), (20, 20), (30, 30), (10, 10), (20, 20), (30, 30), (10, 10)] := by
  constructor
  · intro locations R n h
    rw [clickLoopRun_closed locations R n h]
    constructor
    · intro hl
      simp [hl]
    · intro hl
      subst hl
      simp
  · decide

theorem clickLoop_cyclic_moves_witness :
    (clickLoopRun [((5 : Int), (6 : Int))] 2 2).moves =
      cyclicMoves [((5 : Int), (6 : Int))] 2 ∧
    (clickLoopRun ([] : List (Int × Int)) 3 2).moves = [] :=
  ⟨(clickLoop_cyclic_moves.1 [((5 : Int), (6 : Int))] 2 2 (Or.inr (by decide))).1
      (by decide),
   (clickLoop_cyclic_moves.1 [] 3 2 (Or.inr (by decide))).2 rfl⟩

/-- C4: a status or click-count callback that raises is swallowed at the
call site (`notify…E` always returns `.ok`), so the click loop threaded
through `Except` runs to the very same state as the pure loop for every
callback — the loop is never aborted by a callback failure. -/
theorem clickLoop_callback_fire_and_forget :
    (∀ cb count, notifyClickCountE cb count = .ok ()) ∧
    (∀ cb running, notifyStatusE cb running = .ok ()) ∧
    (∀ cb locations R n,
      clickLoopRunE cb locations R n = .ok (clickLoopRun locations R n)) := by
  refine ⟨notifyClickCountE_ok, notifyStatusE_ok, ?_⟩
  intro cb locations R n
  induction n with
  | zero => rfl
  | succ n ih => simp [clickLoopRunE, clickLoopRun, ih, clickLoopStepE_eq]

/-! ## Settings store (`config.py`) -/

/-- A JSON scalar as stored in `config.json` (strings, integers, booleans
are the only value shapes used by the settings). -/
inductive SVal where
  | str : String → SVal
  | int : Int → SVal
  | bool : Bool → SVal
deriving Repr, DecidableEq

/-- `constants.DEFAULT_HOTKEY`. -/
def DEFAULT_HOTKEY : String := "F6"

/-- `constants.DEFAULT_INTERVAL_MS`. -/
def DEFAULT_INTERVAL_MS : Int := 100

/-- `config.DEFAULTS`, in source order. -/
def DEFAULTS : List (String × SVal) :=
  [("hotkey", .str DEFAULT_HOTKEY),
   ("interval_hours", .int 0),
   ("interval_mins", .int 0),
   ("interval_secs", .int 0),
   ("interval_ms", .int DEFAULT_INTERVAL_MS),
   ("mouse_button", .str "Left"),
   ("click_type", .str "Single"),
   ("repeat_mode", .str "infinite"),
   ("repeat_count", .int 50),
   ("show_toast", .bool true),
   ("show_osd", .bool true)]

/-- A Python dict of settings, as key lookup. -/
def PyDict : Type := String → Option SVal

/-- Association-list lookup, used to read `DEFAULTS` as a dict. -/
def dget (l : List (String × SVal)) (k : String) : Option SVal :=
  match l.find? (fun p => p.1 == k) with
  | some p => some p.2
  | none => none

/-- `dict(DEFAULTS)`. -/
def defaultsDict : PyDict := fun k => dget DEFAULTS k

/-- `base.update(overlay)` (Python `dict.update`): an overlay entry wins,
otherwise the base entry survives. -/
def dictUpdate (base overlay : PyDict) : PyDict :=
  fun k =>
    match overlay k with
    | some v => some v
    | none => base k

/-- The recognized settings keys: exactly the keys of `DEFAULTS`. -/
def recognizedKeys : List String := DEFAULTS.map Prod.fst

/-- `config.load`: `data = dict(DEFAULTS)`, then `data.update(saved)` when
the file was read and parsed; a missing or unparseable file
(`FileNotFoundError`, `json.JSONDecodeError`, `OSError`, modelled as
`none`) leaves the defaults untouched. -/
def configLoad (file : Option PyDict) : PyDict :=
  match file with
  | none => defaultsDict
  | some saved => dictUpdate defaultsDict saved

/-- `config.save` on the success path: `json.dump` writes the settings
dict, so the stored file parses back to the same dict. -/
def configSave (settings : PyDict) : Option PyDict :=
  some settings

/-- C5: saving then loading returns, for every recognized key, the saved
value when the key was present and the documented default when it was
absent. -/
theorem config_roundtrip (s : PyDict) (k : String) (hk : k ∈ recognizedKeys) :
    (∀ v, s k = some v → configLoad (configSave s) k = some v) ∧
    (s k = none → configLoad (configSave s) k = defaultsDict k) := by
  constructor
  · intro v hv
    simp [configLoad, configSave, dictUpdate, hv]
  · intro hv
    simp [configLoad, configSave, dictUpdate, hv]

theorem config_roundtrip_witness :
    configLoad (configSave (fun k => if k == "interval_ms" then some (.int 250) else none))
      "interval_ms" = some (.int 250) ∧
    configLoad (configSave (fun k => if k == "interval_ms" then some (.int 250) else none))
      "hotkey" = defaultsDict "hotkey" :=
  ⟨(config_roundtrip (fun k => if k == "interval_ms" then some (.int 250) else none)
      "interval_ms" (by decide)).1 (.int 250) rfl,
   (config_roundtrip (fun k => if k == "interval_ms" then some (.int 250) else none)
      "hotkey" (by decide)).2 rfl⟩

/-- A decoded JSON top-level value, as `json.load` can return it.
Object entries and key-value pairs are modelled in the string-keyed,
scalar-valued shapes the settings dict represents. -/
inductive JTop where
  | jobj (entries : List (String × SVal))
  | jarr (elems : List JTop)
  | jstr (s : String)
  | jint (n : Int)
  | jbool (b : Bool)
  | jnull
deriving Repr

/-- Point update of a dict. -/
def setKey (d : PyDict) (k : String) (v : SVal) : PyDict :=
  fun q => if q == k then some v else d q

/-- One element of a `dict.update(sequence)` call: it must be a
two-element sequence (a two-element array or a two-character string),
else Python raises `ValueError`/`TypeError`. -/
def pyUpdateSeqElem (d : PyDict) : JTop → Except String PyDict
  | .jarr [.jstr k, .jstr v] => .ok (setKey d k (.str v))
  | .jarr [.jstr k, .jint n] => .ok (setKey d k (.int n))
  | .jarr [.jstr k, .jbool b] => .ok (setKey d k (.bool b))
  | .jarr [] => .error "ValueError: update sequence element has bad length"
  | .jarr [_] => .error "ValueError: update sequence element has bad length"
  | .jarr (_ :: _ :: _ :: _) =>
    .error "ValueError: update sequence element has bad length"
  | .jstr s =>
    match s.toList with
    | [k, v] => .ok (setKey d (String.mk [k]) (.str (String.mk [v])))
    | _ => .error "ValueError: update sequence element has bad length"
  | _ => .error "TypeError: cannot convert update sequence element"

/-- `dict.update` fed a sequence: apply the elements left to right,
raising at the first bad element. -/
def pyUpdateSeq (d : PyDict) : List JTop → Except String PyDict
  | [] => .ok d
  | e :: rest =>
    match pyUpdateSeqElem d e with
    | .error m => .error m
    | .ok d2 => pyUpdateSeq d2 rest

/-- Python `data.update(saved)` for each JSON shape `json.load` can
produce: a mapping merges; a list is consumed as a key-value sequence; a
non-empty string raises `ValueError` (its one-character elements are not
pairs); an empty string is a no-op; `int`, `bool` and `None` are not
iterable and raise `TypeError`. -/
def pyDictUpdate (d : PyDict) : JTop → Except String PyDict
  | .jobj entries => .ok (dictUpdate d (fun k => dget entries k))
  | .jarr elems => pyUpdateSeq d elems
  | .jstr s => if s.toList = [] then .ok d else .error "ValueError: update sequence element has bad length"
  | .jint _ => .error "TypeError: int object is not iterable"
  | .jbool _ => .error "TypeError: bool object is not iterable"
  | .jnull => .error "TypeError: NoneType object is not iterable"

/-- `config.load` over the decoded file contents: `none` models the
caught exceptions (`FileNotFoundError`, `json.JSONDecodeError`,
`OSError`), which fall back to the defaults; but `data.update(saved)`
sits inside the `try` and its `TypeError`/`ValueError` on a valid-JSON
non-dict file is not in the caught tuple, so it escapes `load`. -/
def configLoadE (file : Option JTop) : Except String PyDict :=
  match file with
  | none => .ok defaultsDict
  | some saved => pyDictUpdate defaultsDict saved

/-- C6 (code bug): a missing or unparseable file does yield the complete
defaults dict and a JSON object merges over the defaults, but the claim
that `config.load` never raises is false of the code: a file holding the
valid JSON `42`, `null`, `[1, 2]` or `"abc"` makes `data.update(saved)`
raise an uncaught `TypeError`/`ValueError` which escapes `load`. -/
theorem config_load_nondict_raises :
    configLoadE none = .ok defaultsDict ∧
    (∀ entries, configLoadE (some (.jobj entries)) =
      .ok (dictUpdate defaultsDict (fun k => dget entries k))) ∧
    (∃ m, configLoadE (some (.jint 42)) = .error m) ∧
    (∃ m, configLoadE (some .jnull) = .error m) ∧
    (∃ m, configLoadE (some (.jarr [.jint 1, .jint 2])) = .error m) ∧
    (∃ m, configLoadE (some (.jstr "abc")) = .error m) := by
  refine ⟨rfl, fun _ => rfl, ⟨_, rfl⟩, ⟨_, rfl⟩, ⟨_, rfl⟩, ⟨_, by rfl⟩⟩

/-! ## Hotkey listener (`hotkey.py`) -/

/-- `_build_vk_map`: function keys F1–F24 (`VK_F1 = 0x70`). -/
def vkMapFunctionKeys : List (String × Nat) :=
  (List.range 24).map (fun i => ("F" ++ toString (i + 1), 0x6F + (i + 1)))

/-- `_build_vk_map`: letters A–Z (`VK_A = 0x41 = 'A'`). -/
def vkMapLetters : List (String × Nat) :=
  "ABCDEFGHIJKLMNOPQRSTUVWXYZ".toList.map (fun c => (String.mk [c], c.toNat))

/-- `_build_vk_map`: digits 0–9 (`VK_0 = 0x30 = '0'`). -/
def vkMapDigits : List (String × Nat) :=
  "0123456789".toList.map (fun c => (String.mk [c], c.toNat))

/-- `_build_vk_map`: the special keys. -/
def vkMapSpecial : List (String × Nat) :=
  [("SPACE", 0x20), ("ENTER", 0x0D), ("RETURN", 0x0D), ("ESCAPE", 0x1B),
   ("TAB", 0x09), ("INSERT", 0x2D), ("DELETE", 0x2E), ("HOME", 0x24),
   ("END", 0x23), ("PAGEUP", 0x21), ("PAGE_UP", 0x21), ("PAGEDOWN", 0x22),
   ("PAGE_DOWN", 0x22), ("UP", 0x26), ("DOWN", 0x28), ("LEFT", 0x25),
   ("RIGHT", 0x27), ("NUMPAD0", 0x60), ("NUMPAD1", 0x61), ("NUMPAD2", 0x62),
   ("NUMPAD3", 0x63), ("NUMPAD4", 0x64), ("NUMPAD5", 0x65), ("NUMPAD6", 0x66),
   ("NUMPAD7", 0x67), ("NUMPAD8", 0x68), ("NUMPAD9", 0x69), ("PAUSE", 0x13),
   ("SCROLL_LOCK", 0x91), ("CAPS_LOCK", 0x14)]

/-- `_VK_MAP = _build_vk_map()` (all key groups are pairwise disjoint, so
first-match lookup agrees with the Python dict). -/
def VK_MAP : List (String × Nat) :=
  vkMapFunctionKeys ++ vkMapLetters ++ vkMapDigits ++ vkMapSpecial

/-- Python `str.upper()` (ASCII range), character by character. -/
def strUpper (s : String) : String :=
  String.mk (s.toList.map Char.toUpper)

/-- `_name_to_vk`: `_VK_MAP.get(name.upper())`. -/
def nameToVk (name : String) : Option Nat :=
  match VK_MAP.find? (fun p => p.1 == strUpper name) with
  | some p => some p.2
  | none => none

/-- Listener state touched by `set_hotkey` and one pass of `_run`:
`hotkeyName` mirrors `self._hotkey_name`, `changeFlag` mirrors
`self._change_event`, `registeredVk` is the virtual-key code currently
registered with the OS (if any). -/
structure ListenerState where
  hotkeyName : String
  changeFlag : Bool
  registeredVk : Option Nat
deriving Repr, DecidableEq

/-- `HotkeyListener.set_hotkey`: store the name and signal the change. -/
def setHotkey (s : ListenerState) (keyName : String) : ListenerState :=
  { s with hotkeyName := keyName, changeFlag := true }

/-- What one pass of the `while` body in `HotkeyListener._run` did. -/
inductive RunPassOutcome where
  | waitedForChange
  | registerFailedRetry
  | registered (vk : Nat)
deriving Repr, DecidableEq

/-- One pass of the `while not self._stop_event.is_set()` body of
`HotkeyListener._run`: an unresolvable name is logged and the thread just
waits for the next change signal (clearing it before continuing);
a resolvable name is registered when the OS accepts (`osOk`), else the
pass sleeps and retries leaving the state alone. -/
def runPass (osOk : Bool) (s : ListenerState) : ListenerState × RunPassOutcome :=
  match nameToVk s.hotkeyName with
  | none => ({ s with changeFlag := false }, .waitedForChange)
  | some vk =>
    if osOk then
      ({ s with changeFlag := false, registeredVk := some vk }, .registered vk)
    else (s, .registerFailedRetry)

/-- C7: `set_hotkey` with an unresolvable name never crashes the listener
pass and registers nothing (the registered code is untouched and the pass
just waits for the next change signal); a later `set_hotkey` with a
resolvable name makes the next pass of the same loop register it — no
restart involved. -/
theorem hotkey_unresolvable_deferred (s : ListenerState) (bad : String)
    (hbad : nameToVk bad = none) :
    (∀ osOk, (runPass osOk (setHotkey s bad)).2 = .waitedForChange ∧
      (runPass osOk (setHotkey s bad)).1.registeredVk = s.registeredVk ∧
      (runPass osOk (setHotkey s bad)).1.hotkeyName = bad) ∧
    (∀ good vk, nameToVk good = some vk →
      (runPass true (setHotkey (setHotkey s bad) good)).2 = .registered vk ∧
      (runPass true (setHotkey (setHotkey s bad) good)).1.registeredVk = some vk) := by
  constructor
  · intro osOk
    simp [runPass, setHotkey, hbad]
  · intro good vk hgood
    simp [runPass, setHotkey, hgood]

theorem hotkey_unresolvable_deferred_witness :
    (runPass true (setHotkey ⟨"F6", false, none⟩ "NO_SUCH_KEY")).2 =
      .waitedForChange ∧
    (runPass true (setHotkey (setHotkey ⟨"F6", false, none⟩ "NO_SUCH_KEY") "F7")).2 =
      .registered 118 :=
  ⟨((hotkey_unresolvable_deferred ⟨"F6", false, none⟩ "NO_SUCH_KEY" (by decide)).1
      true).1,
   ((hotkey_unresolvable_deferred ⟨"F6", false, none⟩ "NO_SUCH_KEY" (by decide)).2
      "F7" 118 (by decide)).1⟩

/-! ## Capture mode (`_tkinter_event_to_name` / `_on_tk_key_press`) -/

/-- `_TKINTER_KEYSYM_MAP`: Tkinter keysym → canonical key name. -/
def TKINTER_KEYSYM_MAP : List (String × String) :=
  [("space", "SPACE"), ("Return", "ENTER"), ("Escape", "ESCAPE"),
   ("Tab", "TAB"), ("Insert", "INSERT"), ("Delete", "DELETE"),
   ("Home", "HOME"), ("End", "END"),
   ("Prior", "PAGEUP"), ("Next", "PAGEDOWN"),
   ("Up", "UP"), ("Down", "DOWN"), ("Left", "LEFT"), ("Right", "RIGHT"),
   ("Pause", "PAUSE"), ("Scroll_Lock", "SCROLL_LOCK"),
   ("Caps_Lock", "CAPS_LOCK")]

/-- Dict lookup in `_TKINTER_KEYSYM_MAP`. -/
def keysymLookup (sym : String) : Option String :=
  match TKINTER_KEYSYM_MAP.find? (fun p => p.1 == sym) with
  | some p => some p.2
  | none => none

/-- The lone-modifier keysyms ignored during capture. -/
def modifierKeysyms : List String :=
  ["Shift_L", "Shift_R", "Control_L", "Control_R",
   "Alt_L", "Alt_R", "Super_L", "Super_R", "Meta_L", "Meta_R"]

/-- A Tkinter `<KeyPress>` event: its `keysym` and its `char` (possibly
empty). -/
structure TkEvent where
  keysym : String
  char : String
deriving Repr, DecidableEq

/-- Python `str.isdigit()` (ASCII model): non-empty and all digits. -/
def pyIsDigits (cs : List Char) : Bool :=
  !cs.isEmpty && cs.all Char.isDigit

/-- Python `str.isalnum()` (ASCII model): non-empty and all alphanumeric. -/
def pyIsAlnum (cs : List Char) : Bool :=
  !cs.isEmpty && cs.all Char.isAlphanum

/-- `_tkinter_event_to_name`, check for check in source order: the fixed
keysym table, then `sym.startswith("F") and sym[1:].isdigit()` function
keys, then single alphanumeric characters, then `KP_`+digit keypad keys,
then lone modifiers (→ `None`), then the `event.char` fallback.  String
slicing and predicates are modelled on the character lists. -/
def tkEventToName (e : TkEvent) : Option String :=
  let sym := e.keysym.toList
  match keysymLookup e.keysym with
  | some name => some name
  | none =>
    if sym.take 1 = ['F'] ∧ pyIsDigits (sym.drop 1) then
      some (strUpper e.keysym)
    else if sym.length = 1 ∧ pyIsAlnum sym then
      some (strUpper e.keysym)
    else if sym.take 3 = ['K', 'P', '_'] ∧ pyIsDigits (sym.drop 3) then
      some ("NUMPAD" ++ String.mk (sym.drop 3))
    else if e.keysym ∈ modifierKeysyms then
      none
    else if e.char.toList.length = 1 ∧ pyIsAlnum e.char.toList then
      some (strUpper e.char)
    else
      none

/-- Capture-mode state of the `HotkeyListener`: `capturing` mirrors
`self._capturing`, `reported` logs the names handed to the capture
callback. -/
structure CaptureState where
  capturing : Bool
  reported : List String
deriving Repr, DecidableEq

/-- `_on_tk_key_press`: ignore events while not capturing, ignore events
with no canonical name, otherwise disarm and report the name once. -/
def onTkKeyPress (s : CaptureState) (e : TkEvent) : CaptureState :=
  if s.capturing = false then s
  else
    match tkEventToName e with
    | none => s
    | some name => { capturing := false, reported := s.reported ++ [name] }

lemma tkEventToName_modifier (e : TkEvent) (h : e.keysym ∈ modifierKeysyms) :
    tkEventToName e = none := by
  obtain ⟨sym, ch⟩ := e
  fin_cases h <;> rfl

lemma keysymLookup_single (c : Char) : keysymLookup (String.mk [c]) = none := by
  have h : TKINTER_KEYSYM_MAP.find? (fun p => p.1 == String.mk [c]) = none := by
    rw [List.find?_eq_none]
    intro p hp
    fin_cases hp <;>
      · simp only [beq_iff_eq]
        intro h
        have h2 := congrArg String.data h
        simp at h2
  rw [keysymLookup, h]

/-- C8: while capture is armed, a lone-modifier key press changes nothing
(capture stays armed, nothing is reported); the next press with a
canonical name disarms capture and reports that name exactly once, after
which every further press is ignored.  Canonicalization: a single
alphanumeric character maps to its uppercase form, and function keys,
table-mapped named keys and keypad digits map to their stable
identifiers. -/
theorem capture_one_shot :
    (∀ (s : CaptureState) (e : TkEvent), s.capturing = true →
      e.keysym ∈ modifierKeysyms →
      onTkKeyPress s e = s) ∧
    (∀ (s : CaptureState) (e : TkEvent) (name : String), s.capturing = true →
      tkEventToName e = some name →
      (onTkKeyPress s e).capturing = false ∧
      (onTkKeyPress s e).reported = s.reported ++ [name] ∧
      (∀ e2, onTkKeyPress (onTkKeyPress s e) e2 = onTkKeyPress s e)) ∧
    (∀ (c : Char) (ch : String), c.isAlphanum = true →
      tkEventToName ⟨String.mk [c], ch⟩ = some (strUpper (String.mk [c]))) ∧
    (tkEventToName ⟨"F12", ""⟩ = some "F12" ∧
     tkEventToName ⟨"Home", ""⟩ = some "HOME" ∧
     tkEventToName ⟨"KP_7", ""⟩ = some "NUMPAD7") := by
  refine ⟨?_, ?_, ?_, by decide, by decide, by decide⟩
  · intro s e hs hm
    simp [onTkKeyPress, hs, tkEventToName_modifier e hm]
  · intro s e name hs hname
    have hstep : onTkKeyPress s e = ⟨false, s.reported ++ [name]⟩ := by
      simp [onTkKeyPress, hs, hname]
    refine ⟨by rw [hstep], by rw [hstep], ?_⟩
    intro e2
    rw [hstep]
    simp [onTkKeyPress]
  · intro c ch hc
    simp [tkEventToName, keysymLookup_single, pyIsDigits, pyIsAlnum, hc]

theorem capture_one_shot_witness :
    onTkKeyPress ⟨true, []⟩ ⟨"Shift_L", ""⟩ = ⟨true, []⟩ ∧
    (onTkKeyPress ⟨true, []⟩ ⟨"space", " "⟩).reported = [] ++ ["SPACE"] ∧
    tkEventToName ⟨String.mk ['x'], "x"⟩ = some (strUpper (String.mk ['x'])) :=
  ⟨capture_one_shot.1 ⟨true, []⟩ ⟨"Shift_L", ""⟩ rfl (by decide),
   (capture_one_shot.2.1 ⟨true, []⟩ ⟨"space", " "⟩ "SPACE" rfl (by decide)).2.1,
   capture_one_shot.2.2.1 'x' "x" (by decide)⟩

/-! ## Update checker (`updater.py`) -/

/-- `constants.APP_VERSION`. -/
def APP_VERSION : String := "1.2.3"

/-- `tag.lstrip("vV")`: strip every leading `'v'`/`'V'`. -/
def lstripVV (s : String) : String :=
  String.mk (s.toList.dropWhile (fun c => c == 'v' || c == 'V'))

/-- Python `str.strip()` (ASCII whitespace model): trim both ends. -/
def strTrim (s : String) : String :=
  String.mk (((s.toList.dropWhile Char.isWhitespace).reverse.dropWhile
    Char.isWhitespace).reverse)

/-- Python `str.split(".")` on a character list; `"".split(".") = [""]`. -/
def splitOnDot : List Char → List (List Char)
  | [] => [[]]
  | c :: rest =>
    let r := splitOnDot rest
    if c = '.' then [] :: r
    else
      match r with
      | [] => [[c]]
      | h :: t => (c :: h) :: t

/-- Digit tail of a Python integer literal: digits with single
underscores allowed between digits (`int("1_0") = 10`, `int("1_")` and
`int("1__0")` raise). -/
def pyDigitsGo (acc : Nat) : List Char → Option Nat
  | [] => some acc
  | '_' :: d :: rest =>
    if d.isDigit then pyDigitsGo (acc * 10 + (d.toNat - 48)) rest else none
  | '_' :: [] => none
  | d :: rest =>
    if d.isDigit then pyDigitsGo (acc * 10 + (d.toNat - 48)) rest else none

/-- Python `int(s)` (ASCII model): optional surrounding whitespace, an
optional sign, then underscore-grouped digits; anything else raises
(`none`). -/
def pyIntOfChars? (cs : List Char) : Option Int :=
  let cs := cs.dropWhile Char.isWhitespace
  let cs := (cs.reverse.dropWhile Char.isWhitespace).reverse
  match cs with
  | '+' :: d :: rest =>
    if d.isDigit then (pyDigitsGo (d.toNat - 48) rest).map (fun n => (n : Int)) else none
  | '-' :: d :: rest =>
    if d.isDigit then (pyDigitsGo (d.toNat - 48) rest).map (fun n => -(n : Int)) else none
  | d :: rest =>
    if d.isDigit then (pyDigitsGo (d.toNat - 48) rest).map (fun n => (n : Int)) else none
  | [] => none

/-- The `tuple(int(p) for p in cleaned.split("."))` step of
`_parse_version`: `none` models the `ValueError` of any part. -/
def parseParts (tag : String) : Option (List Int) :=
  (splitOnDot (strTrim (lstripVV tag)).toList).mapM pyIntOfChars?

/-- `_parse_version`: strip leading `v`/`V` and whitespace, split on dots,
convert each part with `int`; any `ValueError` yields `(0,)`. -/
def parseVersion (tag : String) : List Int :=
  match parseParts tag with
  | some l => l
  | none => [0]

/-- Python tuple `<` on integer tuples (lexicographic; a strict prefix is
smaller). -/
def tupLt : List Int → List Int → Bool
  | _, [] => false
  | [], _ :: _ => true
  | a :: as, b :: bs =>
    if a < b then true else if b < a then false else tupLt as bs

/-- The fields of the GitHub release JSON the worker reads
(`data.get("tag_name", "")`, `data.get("html_url", "")`); a missing field
is `none`. -/
structure GithubRelease where
  tag_name : Option String
  html_url : Option String
deriving Repr, DecidableEq

/-- The structured result passed to the callback. -/
inductive UpdateResult where
  | upToDate
  | updateAvailable (latest : String) (url : String)
  | error (msg : String)
deriving Repr, DecidableEq

/-- The `_worker` body of `check_for_updates` as a function of the
network/parsing outcome (`Except.error` = any exception raised by the
request or the JSON decoding): compare dotted-integer tuples and build
the structured result. -/
def checkWorker (fetch : Except String GithubRelease) : UpdateResult :=
  match fetch with
  | .error e => .error e
  | .ok data =>
    let tag := data.tag_name.getD ""
    let latest := parseVersion tag
    let current := parseVersion APP_VERSION
    if tupLt current latest then
      .updateAvailable (lstripVV tag) (data.html_url.getD "")
    else
      .upToDate

/-- The sequence of callback invocations one `check_for_updates` run
performs (the callback itself assumed not to raise). -/
def checkCallbackCalls (fetch : Except String GithubRelease) : List UpdateResult :=
  [checkWorker fetch]

lemma tupLt_nil_right (l : List Int) : tupLt l [] = false := by
  cases l <;> rfl

/-- C9: every run of the update check calls the callback exactly once,
always with one of the three structured results; a network or parsing
failure surfaces as the structured `error` result, and on success the
`up_to_date` decision is exactly the dotted-integer-tuple comparison of
the release tag against the current version. -/
theorem update_check_structured :
    (∀ fetch, checkCallbackCalls fetch = [checkWorker fetch]) ∧
    (∀ e, checkWorker (.error e) = .error e) ∧
    (∀ data, checkWorker (.ok data) =
      if tupLt (parseVersion APP_VERSION) (parseVersion (data.tag_name.getD "")) then
        .updateAvailable (lstripVV (data.tag_name.getD "")) (data.html_url.getD "")
      else .upToDate) ∧
    (∀ fetch, checkWorker fetch = .upToDate ∨
      (∃ l u, checkWorker fetch = .updateAvailable l u) ∨
      (∃ m, checkWorker fetch = .error m)) := by
  refine ⟨fun _ => rfl, fun _ => rfl, fun _ => rfl, ?_⟩
  intro fetch
  cases fetch with
  | error e => exact Or.inr (Or.inr ⟨e, rfl⟩)
  | ok data =>
    by_cases h : tupLt (parseVersion APP_VERSION) (parseVersion (data.tag_name.getD "")) = true
    · exact Or.inr (Or.inl ⟨lstripVV (data.tag_name.getD ""), data.html_url.getD "",
        by simp [checkWorker, h]⟩)
    · exact Or.inl (by simp [checkWorker, h])

/-- The claim's notion of a well-formed part: a decimal integer, read as
an optionally signed non-empty digit string. -/
def isDecimalIntString (cs : List Char) : Bool :=
  let ds :=
    match cs with
    | '+' :: r => r
    | '-' :: r => r
    | r => r
  !ds.isEmpty && ds.all Char.isDigit

/-- The claim's hypothesis, read literally: after stripping one leading
`'v'`/`'V'`, the tag is a dotted sequence of decimal integers. -/
def isDottedDecimalTag (tag : String) : Bool :=
  let stripped :=
    match tag.toList with
    | 'v' :: r => r
    | 'V' :: r => r
    | r => r
  (splitOnDot stripped).all isDecimalIntString

/-- C10 counterexample: `"1. 2"` is not a dotted sequence of decimal
integers (one part contains a space) and `"vv1"` is not one after
stripping a single leading `v`, yet `_parse_version` maps them to
`(1, 2)` and `(1,)` rather than `(0,)` — Python's `int()` accepts
surrounding whitespace and `lstrip` removes every leading `v`/`V`. -/
theorem parse_version_fallback_cx :
    isDottedDecimalTag "1. 2" = false ∧ parseVersion "1. 2" = [1, 2] ∧
    isDottedDecimalTag "vv1" = false ∧ parseVersion "vv1" = [1] := by
  decide

/-- C10 (amended): for every tag whose dot-separated parts — after
stripping all leading `'v'`/`'V'` characters and surrounding whitespace —
do not all parse as Python integers (optional whitespace, optional sign,
underscore digit grouping), `_parse_version` returns `(0,)`; consequently
a release with such a malformed (or missing) `tag_name` yields latest
`(0,)`, which compares no greater than any non-empty current version
tuple with non-negative entries, and the check reports up-to-date. -/
theorem parse_version_fallback :
    (∀ tag, parseParts tag = none → parseVersion tag = [0]) ∧
    (∀ data : GithubRelease, parseParts (data.tag_name.getD "") = none →
      checkWorker (.ok data) = .upToDate) ∧
    (∀ cur : List Int, cur ≠ [] → (∀ x ∈ cur, 0 ≤ x) → tupLt cur [0] = false) := by
  have hfb : ∀ tag, parseParts tag = none → parseVersion tag = [0] := by
    intro tag h
    simp [parseVersion, h]
  refine ⟨hfb, ?_, ?_⟩
  · intro data h
    have hcmp : tupLt (parseVersion APP_VERSION) [0] = false := by decide
    simp [checkWorker, hfb _ h, hcmp]
  · intro cur hne hnn
    rcases cur with _ | ⟨c, rest⟩
    · cases hne rfl
    · have hc0 : 0 ≤ c := hnn c (by simp)
      have hlt : ¬c < 0 := by omega
      by_cases h0 : 0 < c
      · simp [tupLt, hlt, h0]
      · simp [tupLt, hlt, h0, tupLt_nil_right]

theorem parse_version_fallback_witness :
    parseVersion "beta" = [0] ∧
    checkWorker (.ok ⟨some "beta", some "https://x"⟩) = .upToDate ∧
    tupLt [(1 : Int), 2, 3] [0] = false :=
  ⟨parse_version_fallback.1 "beta" (by decide),
   parse_version_fallback.2.1 ⟨some "beta", some "https://x"⟩ (by decide),
   parse_version_fallback.2.2 [(1 : Int), 2, 3] (by decide) (by decide)⟩

end SlickClick
